import Mathlib

/-!
Verification of the EC2 2023 reinforcement material descriptor
(src/structuralcodes/materials/reinforcement/_reinforcementEC2_2023.py).

Numeric values are embedded as rationals: the claims under study are exact
algebraic and structural properties (delegation, defaulting, error paths),
not floating-point rounding properties.  Python float division by zero
raises ZeroDivisionError, so division is embedded as a fallible operation.

External collaborators that are not part of the source file (the code-rule
module ec2_2023, the constitutive-law factory, the base Reinforcement class)
are either kept abstract (the code rules, as a record of functions the
descriptor delegates to) or modelled from the spec where a claim needs them.
-/

/-- The code-rule provider, the external module ec2_2023 as used by the
source file: it supplies the design-value rule applied to strengths (the
function named fyd there) and the design ultimate-strain rule eps_ud.
The descriptor delegates to these functions without inspecting them, so
they are kept abstract as a record of functions. -/
structure CodeRules where
  fyd : ℚ → ℚ → ℚ
  eps_ud : ℚ → ℚ → ℚ

/-- Modelled from the spec: a constitutive-law instance (class ConstitutiveLaw
is outside the source file).  The spec requires only that a law exposes a
materials-applicability marker (a set of category strings queried for
membership of "steel") and that factory-built laws carry the parameter bag
supplied by the material. -/
structure ConstitutiveLaw where
  materials : List String
  params : List (String × ℚ)
deriving DecidableEq

/-- The attributes the descriptor stores before the constitutive law is
resolved: this is the state visible to the factory when it queries the
material for parameters.  The base-class initializer is outside the source
file; per the spec it stores the characteristic properties unchanged. -/
structure ReinforcementData where
  fyk : ℚ
  Es : ℚ
  ftk : ℚ
  epsuk : ℚ
  _gamma_s : Option ℚ
  name : String
  density : ℚ
deriving DecidableEq

/-- Python float division: raises ZeroDivisionError on a zero denominator,
otherwise returns the quotient (idealized as exact). -/
def pyDiv (a b : ℚ) : Except String ℚ :=
  if b = 0 then Except.error "ZeroDivisionError: float division by zero"
  else Except.ok (a / b)

/-- Python round applied to a real number, returning an integer: rounds to
the nearest integer, ties to the even integer (banker rounding). -/
def pyRound (q : ℚ) : ℤ :=
  let f : ℤ := ⌊q⌋
  let r : ℚ := q - f
  if r < 1/2 then f
  else if 1/2 < r then f + 1
  else if f % 2 = 0 then f
  else f + 1

namespace ReinforcementData

/-- The gamma_s property of the source: the expression
self._gamma_s or 1.15, with Python truthiness (None and 0.0 are falsy,
every other float is truthy). -/
def gamma_s (m : ReinforcementData) : ℚ :=
  match m._gamma_s with
  | none => 1.15
  | some g => if g = 0 then 1.15 else g

/-- The fyd method of the source: return ec2_2023.fyd(self.fyk, self.gamma_s). -/
def fyd (rules : CodeRules) (m : ReinforcementData) : ℚ :=
  rules.fyd m.fyk m.gamma_s

/-- The ftd method of the source: return ec2_2023.fyd(self.ftk, self.gamma_s). -/
def ftd (rules : CodeRules) (m : ReinforcementData) : ℚ :=
  rules.fyd m.ftk m.gamma_s

/-- The epsud method of the source: return ec2_2023.eps_ud(self.epsuk, self.gamma_s). -/
def epsud (rules : CodeRules) (m : ReinforcementData) : ℚ :=
  rules.eps_ud m.epsuk m.gamma_s

/-- Modelled from the spec: the epsyd property provided by the base
Reinforcement class (outside the source file) is the design yield strain
fyd / Es. -/
def epsyd (rules : CodeRules) (m : ReinforcementData) : ℚ :=
  m.fyd rules / m.Es

/-- The __elastic__ method of the source: kwargs for an elastic law. -/
def __elastic__ (m : ReinforcementData) : List (String × ℚ) :=
  [("E", m.Es)]

/-- The __elasticperfectlyplastic__ method of the source: kwargs for an
elastic-plastic law with no strain hardening. -/
def __elasticperfectlyplastic__ (rules : CodeRules) (m : ReinforcementData) :
    List (String × ℚ) :=
  [("E", m.Es), ("fy", m.fyd rules), ("eps_su", m.epsud rules)]

/-- The __elasticplastic__ method of the source: kwargs for an
elastic-plastic law with strain hardening.  The hardening modulus is
Eh = (ftd - fyd) / (epsud - epsyd); the division is Python float division
and raises on a zero denominator. -/
def __elasticplastic__ (rules : CodeRules) (m : ReinforcementData) :
    Except String (List (String × ℚ)) :=
  (pyDiv (m.ftd rules - m.fyd rules) (m.epsud rules - m.epsyd rules)).map
    (fun Eh => [("E", m.Es), ("fy", m.fyd rules), ("Eh", Eh), ("eps_su", m.epsud rules)])

end ReinforcementData

/-- Modelled from the spec: the external factory create_constitutive_law
(outside the source file).  For each of the three recognized kind names it
queries the material for that kind of parameter bag and builds a law; per
the spec the laws it builds for a reinforcement material declare the
"steel" category.  For any other name it fails with the
invalid-configuration error documented in the source docstring (the
constitutive law name is not available for the material). -/
def create_constitutive_law (rules : CodeRules) (constitutive_law_name : String)
    (material : ReinforcementData) : Except String ConstitutiveLaw :=
  if constitutive_law_name = "elastic" then
    Except.ok ⟨["steel"], material.__elastic__⟩
  else if constitutive_law_name = "elasticperfectlyplastic" then
    Except.ok ⟨["steel"], material.__elasticperfectlyplastic__ rules⟩
  else if constitutive_law_name = "elasticplastic" then
    (material.__elasticplastic__ rules).map (fun p => ⟨["steel"], p⟩)
  else
    Except.error ("Constitutive law " ++ constitutive_law_name ++
      " not available for material.")

/-- The constructed descriptor: the stored attributes together with the
resolved constitutive law. -/
structure ReinforcementEC2_2023 extends ReinforcementData where
  _constitutive_law : ConstitutiveLaw
deriving DecidableEq

namespace ReinforcementEC2_2023

/-- The gamma_s property on the constructed descriptor. -/
def gamma_s (m : ReinforcementEC2_2023) : ℚ :=
  m.toReinforcementData.gamma_s

/-- The fyd method on the constructed descriptor. -/
def fyd (rules : CodeRules) (m : ReinforcementEC2_2023) : ℚ :=
  m.toReinforcementData.fyd rules

/-- The ftd method on the constructed descriptor. -/
def ftd (rules : CodeRules) (m : ReinforcementEC2_2023) : ℚ :=
  m.toReinforcementData.ftd rules

/-- The epsud method on the constructed descriptor. -/
def epsud (rules : CodeRules) (m : ReinforcementEC2_2023) : ℚ :=
  m.toReinforcementData.epsud rules

end ReinforcementEC2_2023

/-- The name synthesis of the source constructor: if name is None it becomes
the string Reinforcement followed by round(fyk) printed as a decimal
integer. -/
def resolve_name (name : Option String) (fyk : ℚ) : String :=
  match name with
  | none => "Reinforcement" ++ toString (pyRound fyk)
  | some n => n

/-- The conditional expression of the source constructor that resolves the
constitutive_law argument: an already-built instance is adopted directly,
a string is handed to the external factory together with the material. -/
def resolve_constitutive_law (rules : CodeRules) (cl : String ⊕ ConstitutiveLaw)
    (material : ReinforcementData) : Except String ConstitutiveLaw :=
  match cl with
  | Sum.inr law => Except.ok law
  | Sum.inl s => create_constitutive_law rules s material

/-- The constructor of ReinforcementEC2_2023: synthesize the name if absent,
store the attributes, resolve the constitutive law (propagating any factory
error), and reject a law whose materials marker does not contain "steel".
An error result means no descriptor is created. -/
def ReinforcementEC2_2023.init (rules : CodeRules) (fyk Es ftk epsuk : ℚ)
    (gamma_s : Option ℚ) (name : Option String) (density : ℚ)
    (constitutive_law : String ⊕ ConstitutiveLaw) :
    Except String ReinforcementEC2_2023 :=
  let data : ReinforcementData :=
    ⟨fyk, Es, ftk, epsuk, gamma_s, resolve_name name fyk, density⟩
  match resolve_constitutive_law rules constitutive_law data with
  | Except.error e => Except.error e
  | Except.ok law =>
      if "steel" ∉ law.materials then
        Except.error "The provided constitutive law is not valid for reinforcement."
      else
        Except.ok ⟨data, law⟩

/-- A sample code-rule provider used to instantiate witnesses: design value
is the characteristic value divided by the partial factor, design ultimate
strain keeps the characteristic strain. -/
def sampleRules : CodeRules :=
  ⟨fun x g => x / g, fun e _ => e⟩

/-- A constitutive-law instance declaring the steel category, used as a
concrete input in witnesses. -/
def lawSteelElastic : ConstitutiveLaw := ⟨["steel"], [("E", 200000)]⟩

/-- A constitutive-law instance tagged only for concrete, used as a
concrete input in witnesses. -/
def lawConcreteOnly : ConstitutiveLaw := ⟨["concrete"], []⟩

/-- A concrete descriptor with no partial-factor override. -/
def matB500 : ReinforcementEC2_2023 :=
  ⟨⟨500, 200000, 575, 3/40, none, "B500", 7850⟩, lawSteelElastic⟩

/-- A concrete descriptor with override 2. -/
def matB500g2 : ReinforcementEC2_2023 :=
  ⟨⟨500, 200000, 575, 3/40, some 2, "B500", 7850⟩, lawSteelElastic⟩

/-- A concrete descriptor with override 0. -/
def matB500g0 : ReinforcementEC2_2023 :=
  ⟨⟨500, 200000, 575, 3/40, some 0, "B500", 7850⟩, lawSteelElastic⟩

/-- The descriptor produced by constructing with fyk 500.4 and no name. -/
def matAutoName : ReinforcementEC2_2023 :=
  ⟨⟨500.4, 200000, 575, 3/40, none, "Reinforcement500", 7850⟩, ⟨["steel"], [("E", 200000)]⟩⟩

/-- A concrete attribute record matching test scenario 7 of the spec
(fyk 500, ftk 575, Es 200000, epsuk 0.075, partial factor 1.15). -/
def matEP : ReinforcementData := ⟨500, 200000, 575, 3/40, some 1.15, "B500", 7850⟩

/-- A concrete attribute record whose design ultimate strain equals its
design yield strain under the sample rules (epsuk = 1/460 = (500/1.15)/200000). -/
def matDEG : ReinforcementData := ⟨500, 200000, 575, 1/460, none, "B500", 7850⟩

/-- C1: every call to fyd on a constructed material returns exactly the
code-rule design value applied to the stored characteristic yield strength
fyk and the resolved partial factor gamma_s, by direct delegation with no
caching and no other transformation. -/
theorem fyd_delegates_to_code_rule (rules : CodeRules) (m : ReinforcementEC2_2023) :
    m.fyd rules = rules.fyd m.fyk m.gamma_s :=
  rfl

/-- C2: ftd applies the very same design-value rule function that fyd uses
(the code-rule provider member named fyd) to the characteristic ultimate
strength ftk and the resolved gamma_s; the yield rule and the ultimate rule
are one function, not two. -/
theorem ftd_uses_same_rule_as_fyd (rules : CodeRules) (m : ReinforcementEC2_2023) :
    m.ftd rules = rules.fyd m.ftk m.gamma_s :=
  rfl

/-- C3 counterexample: constructing with the override 0 supplied, the
gamma_s accessor returns 1.15, not the override unchanged, because the
accessor tests Python truthiness rather than None. -/
theorem gamma_s_zero_override_cex :
    (ReinforcementEC2_2023.init sampleRules 500 200000 575 (3/40) (some 0) (some "B500")
      7850 (Sum.inl "elastic")).map (fun m => m.gamma_s) = Except.ok 1.15 ∧
    (1.15 : ℚ) ≠ 0 := by
  constructor
  · simp [ReinforcementEC2_2023.init, resolve_constitutive_law, create_constitutive_law,
      resolve_name, ReinforcementEC2_2023.gamma_s, ReinforcementData.gamma_s, Except.map]
  · norm_num

/-- C3 (amended): the gamma_s accessor returns exactly 1.15 when no
override is stored, and returns every nonzero stored override unchanged
(a zero override is falsy in Python and is replaced by the default). -/
theorem gamma_s_default_and_nonzero_override (m₁ m₂ : ReinforcementEC2_2023) (g : ℚ)
    (h₁ : m₁._gamma_s = none) (h₂ : m₂._gamma_s = some g) (hg : g ≠ 0) :
    m₁.gamma_s = 1.15 ∧ m₂.gamma_s = g := by
  unfold ReinforcementEC2_2023.gamma_s ReinforcementData.gamma_s
  rw [h₁, h₂]
  simp [hg]

/-- C3 witness: the amended claim evaluated on concrete descriptors with no
override and with the nonzero override 2. -/
theorem gamma_s_default_and_nonzero_override_witness :
    matB500._gamma_s = none ∧ matB500g2._gamma_s = some 2 ∧ (2 : ℚ) ≠ 0 ∧
    matB500.gamma_s = 1.15 ∧ matB500g2.gamma_s = 2 := by
  refine ⟨rfl, rfl, by norm_num, ?_⟩
  exact gamma_s_default_and_nonzero_override matB500 matB500g2 2 rfl rfl (by norm_num)

/-- C4: whenever the constitutive-law argument (a pre-built instance or a
factory request) resolves to a law whose materials marker does not contain
steel, construction fails with the invalid-configuration error of the
source and no descriptor value is produced. -/
theorem nonsteel_law_rejected (rules : CodeRules) (fyk Es ftk epsuk : ℚ)
    (g : Option ℚ) (n : Option String) (d : ℚ) (cl : String ⊕ ConstitutiveLaw)
    (law : ConstitutiveLaw)
    (hres : resolve_constitutive_law rules cl
      ⟨fyk, Es, ftk, epsuk, g, resolve_name n fyk, d⟩ = Except.ok law)
    (hst : "steel" ∉ law.materials) :
    ReinforcementEC2_2023.init rules fyk Es ftk epsuk g n d cl =
      Except.error "The provided constitutive law is not valid for reinforcement." := by
  simp only [ReinforcementEC2_2023.init, hres, if_pos hst]

/-- C4 witness: construction with a pre-built law tagged only for concrete
fails with the invalid-configuration error. -/
theorem nonsteel_law_rejected_witness :
    resolve_constitutive_law sampleRules (Sum.inr lawConcreteOnly)
      ⟨500, 200000, 575, 3/40, none, resolve_name (some "B500") 500, 7850⟩ =
      Except.ok lawConcreteOnly ∧
    "steel" ∉ lawConcreteOnly.materials ∧
    ReinforcementEC2_2023.init sampleRules 500 200000 575 (3/40) none (some "B500") 7850
      (Sum.inr lawConcreteOnly) =
      Except.error "The provided constitutive law is not valid for reinforcement." :=
  ⟨rfl, by decide,
    nonsteel_law_rejected sampleRules 500 200000 575 (3/40) none (some "B500") 7850
      (Sum.inr lawConcreteOnly) lawConcreteOnly rfl (by decide)⟩

/-- C5: for every law identifier string other than the three recognized
kinds, the factory fails with its invalid-configuration error and the
constructor propagates exactly that error, creating no descriptor. -/
theorem unrecognized_law_name_error_propagates (rules : CodeRules)
    (fyk Es ftk epsuk : ℚ) (g : Option ℚ) (n : Option String) (d : ℚ) (s : String)
    (h1 : s ≠ "elastic") (h2 : s ≠ "elasticperfectlyplastic")
    (h3 : s ≠ "elasticplastic") :
    create_constitutive_law rules s ⟨fyk, Es, ftk, epsuk, g, resolve_name n fyk, d⟩ =
      Except.error ("Constitutive law " ++ s ++ " not available for material.") ∧
    ReinforcementEC2_2023.init rules fyk Es ftk epsuk g n d (Sum.inl s) =
      Except.error ("Constitutive law " ++ s ++ " not available for material.") := by
  have hcr : create_constitutive_law rules s
      ⟨fyk, Es, ftk, epsuk, g, resolve_name n fyk, d⟩ =
      Except.error ("Constitutive law " ++ s ++ " not available for material.") := by
    simp only [create_constitutive_law, if_neg h1, if_neg h2, if_neg h3]
  refine ⟨hcr, ?_⟩
  simp only [ReinforcementEC2_2023.init, resolve_constitutive_law, hcr]

/-- C5 witness: constructing with the unrecognized identifier bogus fails
with the factory error, propagated unchanged. -/
theorem unrecognized_law_name_error_propagates_witness :
    ("bogus" : String) ≠ "elastic" ∧ ("bogus" : String) ≠ "elasticperfectlyplastic" ∧
    ("bogus" : String) ≠ "elasticplastic" ∧
    ReinforcementEC2_2023.init sampleRules 500 200000 575 (3/40) none (some "B500") 7850
      (Sum.inl "bogus") =
      Except.error ("Constitutive law " ++ "bogus" ++ " not available for material.") :=
  ⟨by decide, by decide, by decide,
    (unrecognized_law_name_error_propagates sampleRules 500 200000 575 (3/40) none
      (some "B500") 7850 "bogus" (by decide) (by decide) (by decide)).2⟩

/-- C6: whenever construction succeeds with no name given, the stored name
is the string Reinforcement concatenated with the integer rounding of fyk
printed as bare digits. -/
theorem auto_name_from_rounded_fyk (rules : CodeRules) (fyk Es ftk epsuk : ℚ)
    (g : Option ℚ) (d : ℚ) (cl : String ⊕ ConstitutiveLaw)
    (m : ReinforcementEC2_2023)
    (h : ReinforcementEC2_2023.init rules fyk Es ftk epsuk g none d cl = Except.ok m) :
    m.name = "Reinforcement" ++ toString (pyRound fyk) := by
  simp only [ReinforcementEC2_2023.init] at h
  split at h
  · exact absurd h (by simp)
  · split at h
    · exact absurd h (by simp)
    · rw [Except.ok.injEq] at h
      subst h
      rfl

/-- C6 witness: constructing with fyk 500.4 and no explicit name yields the
name Reinforcement500. -/
theorem auto_name_from_rounded_fyk_witness :
    ReinforcementEC2_2023.init sampleRules 500.4 200000 575 (3/40) none none 7850
      (Sum.inl "elastic") = Except.ok matAutoName ∧ matAutoName.name = "Reinforcement500" := by
  have hpr : pyRound (500.4 : ℚ) = 500 := by unfold pyRound; norm_num
  have hinit : ReinforcementEC2_2023.init sampleRules 500.4 200000 575 (3/40) none none
      7850 (Sum.inl "elastic") = Except.ok matAutoName := by
    simp [ReinforcementEC2_2023.init, resolve_constitutive_law, create_constitutive_law,
      resolve_name, hpr, matAutoName, ReinforcementData.__elastic__]
    rfl
  exact ⟨hinit,
    (auto_name_from_rounded_fyk sampleRules 500.4 200000 575 (3/40) none 7850
      (Sum.inl "elastic") matAutoName hinit).trans (by rw [hpr]; rfl)⟩

/-- C7: when the design ultimate strain differs from the design yield
strain, the elastic-plastic parameter bag holds exactly the elastic modulus
Es, the design yield strength fyd, the hardening modulus
Eh = (ftd - fyd) / (epsud - epsyd) with epsyd = fyd / Es, and the design
ultimate strain epsud. -/
theorem elasticplastic_params_formula (rules : CodeRules) (m : ReinforcementData)
    (h : m.epsud rules ≠ m.epsyd rules) :
    m.__elasticplastic__ rules = Except.ok
      [("E", m.Es), ("fy", m.fyd rules),
       ("Eh", (m.ftd rules - m.fyd rules) / (m.epsud rules - m.epsyd rules)),
       ("eps_su", m.epsud rules)] := by
  unfold ReinforcementData.__elasticplastic__ pyDiv
  rw [if_neg (sub_ne_zero_of_ne h)]
  rfl

/-- C7 witness: the elastic-plastic parameter bag evaluated on the concrete
scenario of the spec (fyk 500, ftk 575, Es 200000, epsuk 0.075,
partial factor 1.15). -/
theorem elasticplastic_params_formula_witness :
    matEP.epsud sampleRules ≠ matEP.epsyd sampleRules ∧
    matEP.__elasticplastic__ sampleRules = Except.ok
      [("E", matEP.Es), ("fy", matEP.fyd sampleRules),
       ("Eh", (matEP.ftd sampleRules - matEP.fyd sampleRules) /
         (matEP.epsud sampleRules - matEP.epsyd sampleRules)),
       ("eps_su", matEP.epsud sampleRules)] := by
  have h : matEP.epsud sampleRules ≠ matEP.epsyd sampleRules := by
    norm_num [ReinforcementData.epsud, ReinforcementData.epsyd, ReinforcementData.fyd,
      ReinforcementData.gamma_s, sampleRules, matEP]
  exact ⟨h, elasticplastic_params_formula sampleRules matEP h⟩

/-- C8: when the design ultimate strain equals the design yield strain, the
elastic-plastic parameter computation raises the explicit division error of
Python float division instead of producing an infinite or undefined
hardening modulus. -/
theorem elasticplastic_degenerate_raises (rules : CodeRules) (m : ReinforcementData)
    (h : m.epsud rules = m.epsyd rules) :
    m.__elasticplastic__ rules =
      Except.error "ZeroDivisionError: float division by zero" := by
  unfold ReinforcementData.__elasticplastic__ pyDiv
  rw [if_pos (sub_eq_zero_of_eq h)]
  rfl

/-- C8 witness: a concrete material with degenerate hardening, on which the
elastic-plastic parameter computation fails with the division error. -/
theorem elasticplastic_degenerate_raises_witness :
    matDEG.epsud sampleRules = matDEG.epsyd sampleRules ∧
    matDEG.__elasticplastic__ sampleRules =
      Except.error "ZeroDivisionError: float division by zero" := by
  have h : matDEG.epsud sampleRules = matDEG.epsyd sampleRules := by
    norm_num [ReinforcementData.epsud, ReinforcementData.epsyd, ReinforcementData.fyd,
      ReinforcementData.gamma_s, sampleRules, matDEG]
  exact ⟨h, elasticplastic_degenerate_raises sampleRules matDEG h⟩

/-- C9 counterexample: construction accepts the override -1 and the gamma_s
accessor then returns -1, which is not positive, refuting the claim that
every read of the accessor yields a positive value. -/
theorem gamma_s_negative_override_cex :
    (ReinforcementEC2_2023.init sampleRules 500 200000 575 (3/40) (some (-1))
      (some "B500") 7850 (Sum.inl "elastic")).map (fun m => m.gamma_s) =
      Except.ok (-1) ∧ ¬ (0 : ℚ) < -1 := by
  constructor
  · norm_num [ReinforcementEC2_2023.init, resolve_constitutive_law,
      create_constitutive_law, resolve_name, ReinforcementEC2_2023.gamma_s,
      ReinforcementData.gamma_s, Except.map]
  · norm_num

/-- C9 (amended): provided any stored override is nonnegative, the gamma_s
accessor always returns a positive value (1.15 when the override is absent
or zero, the override itself otherwise); in this exact-arithmetic model
every value is finite. -/
theorem gamma_s_positive_for_nonneg_override (m : ReinforcementEC2_2023)
    (h : 0 ≤ m._gamma_s.getD 1) : 0 < m.gamma_s := by
  unfold ReinforcementEC2_2023.gamma_s ReinforcementData.gamma_s
  cases hg : m._gamma_s with
  | none => norm_num
  | some g =>
      rw [hg, Option.getD_some] at h
      by_cases h0 : g = 0
      · simp only [h0, if_pos rfl]
        norm_num
      · simp only [if_neg h0]
        exact lt_of_le_of_ne h (Ne.symm h0)

/-- C9 witness: the amended positivity claim evaluated on a concrete
descriptor with the nonnegative override 2. -/
theorem gamma_s_positive_for_nonneg_override_witness :
    0 ≤ matB500g2._gamma_s.getD 1 ∧ 0 < matB500g2.gamma_s :=
  ⟨by norm_num [matB500g2], gamma_s_positive_for_nonneg_override matB500g2
    (by norm_num [matB500g2])⟩

/-- C10: a stored override equal to 0 is falsy in Python, so the gamma_s
accessor ignores it and returns the default 1.15. -/
theorem gamma_s_zero_override_defaults (m : ReinforcementEC2_2023)
    (h : m._gamma_s = some 0) : m.gamma_s = 1.15 := by
  unfold ReinforcementEC2_2023.gamma_s ReinforcementData.gamma_s
  rw [h]
  simp

/-- C10 witness: the zero-override descriptor evaluates to the default. -/
theorem gamma_s_zero_override_defaults_witness :
    matB500g0._gamma_s = some 0 ∧ matB500g0.gamma_s = 1.15 :=
  ⟨rfl, gamma_s_zero_override_defaults matB500g0 rfl⟩
